import Mathlib

/-!
# DMX512 receiver (Arduino reference implementation): shallow embedding

This file embeds the DMX512 receiving core of `src/arduino/code.c` in Lean 4
and proves properties of it.  The embedded pieces are:

* the `setup()` zero-initialization → `initState`;
* one invocation of `receiveDMX()` that finds a byte available → `receiveDMX`;
* the periodic part of `loop()` (1000 ms print throttle and 5000 ms timeout
  check) → `loopTick`;
* `getDMXChannel` → `getDMXChannel`;
* `isDMXConnected` → `isDMXConnected`.

All Arduino `unsigned long` values are 32-bit and subtraction on them wraps;
this is modelled by `usub32`.  The byte buffer `uint8_t dmxData[513]` is
modelled as a total function `Nat → Nat` updated by `setSlot`; the fact that
the C code never computes an out-of-range index is proved separately over the
emitted write-index list `writeIndices`.
-/

set_option maxRecDepth 4000

namespace DMX

/-- Value of the C macro `DMX_CHANNELS` (512). -/
def DMX_CHANNELS : Nat := 512

/-- Value of the C macro `DMX_START_CODE` (0x00). -/
def DMX_START_CODE : Nat := 0

/-- Modulus of Arduino `unsigned long` arithmetic, 2^32. -/
def U32 : Nat := 4294967296

/-- Wrapping 32-bit subtraction `a - b` as performed on `unsigned long`. -/
def usub32 (a b : Nat) : Nat :=
  (a % U32 + (U32 - b % U32)) % U32

/-- Store `v` at index `i` of an array modelled as a function. -/
def setSlot (f : Nat → Nat) (i v : Nat) : Nat → Nat :=
  fun j => if j = i then v else f j

/-- The global mutable state of `src/arduino/code.c`:
`dmxData`, `dmxFrameReceived`, `lastFrameTime`, `dmxState`, `channelCount`,
`inBreak`, and the `static unsigned long lastByteTime` of `receiveDMX`. -/
@[ext]
structure DMXState where
  dmxData : Nat → Nat
  dmxFrameReceived : Bool
  lastFrameTime : Nat
  dmxState : Nat
  channelCount : Nat
  inBreak : Bool
  lastByteTime : Nat

/-- State after `setup()`: buffer zero-filled, all scalars at their
initializers. -/
def initState : DMXState :=
  { dmxData := fun _ => 0
    dmxFrameReceived := false
    lastFrameTime := 0
    dmxState := 0
    channelCount := 0
    inBreak := false
    lastByteTime := 0 }

/-- The break check at the top of `receiveDMX`:
`if(currentTime - lastByteTime > 88) { dmxState = 1; channelCount = 0; inBreak = false; }`
where `t` is the value of `micros()` for this byte. -/
def afterBreakCheck (s : DMXState) (t : Nat) : DMXState :=
  if usub32 t s.lastByteTime > 88 then
    { s with dmxState := 1, channelCount := 0, inBreak := false }
  else s

/-- The `if(dmxState == 1)` body of `receiveDMX`, consuming the received byte
`b`; `m` is the value `millis()` would return at this moment. -/
def assemble (s : DMXState) (b m : Nat) : DMXState :=
  if s.dmxState = 1 then
    if s.channelCount = 0 then
      if b = DMX_START_CODE then
        { s with dmxData := setSlot s.dmxData 0 b, channelCount := s.channelCount + 1 }
      else
        { s with dmxState := 0 }
    else if s.channelCount ≤ DMX_CHANNELS then
      let s3 := { s with dmxData := setSlot s.dmxData s.channelCount b,
                         channelCount := s.channelCount + 1 }
      if s3.channelCount > DMX_CHANNELS then
        { s3 with dmxFrameReceived := true, lastFrameTime := m, dmxState := 0 }
      else s3
    else s
  else s

/-- One invocation of `receiveDMX()` in which `rs485.available()` is true and
the byte `b` is read, with `micros() = t` and `millis() = m`.  The break check
uses the previous `lastByteTime`; `lastByteTime` is then unconditionally set
to `t` before the byte is interpreted. -/
def receiveDMX (s : DMXState) (b t m : Nat) : DMXState :=
  assemble { afterBreakCheck s t with lastByteTime := t } b m

/-- The buffer indices written by one `receiveDMX` invocation (mirrors the two
`dmxData[...] = receivedByte` assignments). -/
def writeIndices (s : DMXState) (b t : Nat) : List Nat :=
  let s1 := afterBreakCheck s t
  if s1.dmxState = 1 then
    if s1.channelCount = 0 then
      if b = DMX_START_CODE then [0] else []
    else if s1.channelCount ≤ DMX_CHANNELS then [s1.channelCount]
    else []
  else []

/-- The `if(millis() - lastFrameTime > 5000)` timeout check of `loop()`,
which clears `dmxFrameReceived` when it fires. -/
def loopTickTimeout (s : DMXState) (m : Nat) : DMXState :=
  if usub32 m s.lastFrameTime > 5000 then
    if s.dmxFrameReceived then { s with dmxFrameReceived := false } else s
  else s

/-- The periodic part of `loop()` after the `receiveDMX()` call, with
`millis() = m` throughout the iteration: the 1000 ms print throttle (which
reassigns `lastFrameTime`; `printDMXData` itself has no other effect on this
state) followed by the timeout check. -/
def loopTick (s : DMXState) (m : Nat) : DMXState :=
  loopTickTimeout
    (if s.dmxFrameReceived && decide (usub32 m s.lastFrameTime > 1000) then
      { s with lastFrameTime := m }
    else s) m

/-- Embedding of `getDMXChannel(int channel)`. -/
def getDMXChannel (s : DMXState) (channel : Int) : Nat :=
  if 1 ≤ channel ∧ channel ≤ (DMX_CHANNELS : Int) ∧ s.dmxFrameReceived = true then
    s.dmxData channel.toNat
  else 0

/-- Embedding of `isDMXConnected()`, with `millis() = m`. -/
def isDMXConnected (s : DMXState) (m : Nat) : Bool :=
  s.dmxFrameReceived && decide (usub32 m s.lastFrameTime < 2000)

/-- An externally driven step: either `receiveDMX` consumes an available byte
(with its `micros()` and `millis()` readings), or a `loop()` iteration runs
its periodic part at a given `millis()` reading. -/
inductive Event where
  | byte (b tMicros tMillis : Nat)
  | tick (tMillis : Nat)

/-- Apply one event to the state. -/
def applyEvent (s : DMXState) : Event → DMXState
  | .byte b tu tm => receiveDMX s b tu tm
  | .tick tm => loopTick s tm

/-- Run a sequence of events from a given state. -/
def runFrom (s : DMXState) (es : List Event) : DMXState :=
  es.foldl applyEvent s

/-- Run the system from `setup()` over a sequence of events. -/
def run (es : List Event) : DMXState :=
  runFrom initState es

/-- Feed a list of `(byte, micros, millis)` triples through `receiveDMX`. -/
def runBytes (s : DMXState) : List (Nat × Nat × Nat) → DMXState
  | [] => s
  | (b, t, m) :: rest => runBytes (receiveDMX s b t m) rest

/-- Every byte of the triple list arrives within 88 µs of its predecessor,
so none of them is classified as a break. -/
def allNonBreak (s : DMXState) : List (Nat × Nat × Nat) → Prop
  | [] => True
  | (b, t, m) :: rest => usub32 t s.lastByteTime ≤ 88 ∧ allNonBreak (receiveDMX s b t m) rest

/-- A train of `k` wire bytes of value `v`, arriving 44 µs apart starting
44 µs after time `t`, all while `millis() = m`. -/
def train (v t m k : Nat) : List Event :=
  (List.range k).map (fun i => Event.byte v (t + 44 * (i + 1)) m)

/-- Write value `v` into the `k` consecutive slots `c, c+1, …, c+k-1`. -/
def writeRun (f : Nat → Nat) (c v : Nat) : Nat → (Nat → Nat)
  | 0 => f
  | k + 1 => setSlot (writeRun f c v k) (c + k) v

/-- One complete valid DMX frame on the wire: a start-code byte `0x00`
preceded by a 1000 µs gap (a break), then 512 channel bytes of value 7 at
44 µs gaps, all while `millis() = 100`. -/
def fullFrame : List Event :=
  Event.byte 0 1000 100 :: train 7 1000 100 512

/-- After a published frame: a new break and start code, then one channel
byte 9 — a second frame mid-assembly with only channel 1 received. -/
def overwriteTwo : List Event :=
  [Event.byte 0 30000 150, Event.byte 9 30044 150]

/-- After a published frame: a new break and start code, then channel bytes
9 and 11 — a second frame mid-assembly with only channels 1 and 2 received. -/
def overwriteThree : List Event :=
  [Event.byte 0 30000 150, Event.byte 9 30044 150, Event.byte 11 30088 150]

/-- A receiving state with the cursor at 512, one byte short of completion
(used to witness the completion step). -/
def recvAt512 : DMXState :=
  { initState with dmxState := 1, channelCount := 512, lastByteTime := 1000 }

/-- A receiving state with the cursor at 0, awaiting a start code (used to
witness the invalid-start-code step). -/
def recvAt0 : DMXState :=
  { initState with dmxState := 1, lastByteTime := 1000 }

/-- Intermediate state after the break byte of `fullFrame`: start code stored,
receiving with the cursor at 1. -/
def sA : DMXState :=
  { initState with dmxData := setSlot initState.dmxData 0 0, dmxState := 1,
                   channelCount := 1, inBreak := false, lastByteTime := 1000 }

/-- Intermediate state after 511 channel bytes of `fullFrame`: cursor at 512,
one byte short of completion. -/
def sB : DMXState :=
  { sA with dmxData := writeRun sA.dmxData 1 7 511, channelCount := 1 + 511,
            lastByteTime := 1000 + 44 * 511 }

/-- State after the completing 512th channel byte of `fullFrame`. -/
def sC : DMXState :=
  { sB with dmxData := setSlot sB.dmxData 512 7, channelCount := 513,
            lastByteTime := 1000 + 44 * (511 + 1), dmxFrameReceived := true,
            lastFrameTime := 100, dmxState := 0 }

/-- The state reached by running `fullFrame` from `setup()` (proved below as
`run_fullFrame`). -/
def frameState : DMXState :=
  { dmxData := fun j => if j = 0 then 0 else if j ≤ 512 then 7 else 0
    dmxFrameReceived := true
    lastFrameTime := 100
    dmxState := 0
    channelCount := 513
    inBreak := false
    lastByteTime := 23528 }

section Lemmas

/-- Ordinary subtraction computes `usub32` when no wrap occurs. -/
lemma usub32_of_le (a b : Nat) (hba : b ≤ a) (ha : a < U32) : usub32 a b = a - b := by
  unfold usub32 U32 at *
  omega

/-- The wrapping difference of a value with itself is zero. -/
lemma usub32_self (a : Nat) : usub32 a a = 0 := by
  unfold usub32 U32
  omega

/-- Running an appended event list runs the two parts in sequence. -/
lemma runFrom_append (s : DMXState) (a b : List Event) :
    runFrom s (a ++ b) = runFrom (runFrom s a) b := by
  unfold runFrom
  exact List.foldl_append _ _ _ _

/-- Running from `setup()` over an appended list factors through `run`. -/
lemma run_append (a b : List Event) : run (a ++ b) = runFrom (run a) b := by
  unfold run
  exact runFrom_append _ _ _

/-- A break followed by the valid start code: store it in slot 0 and enter
`Receiving` with the cursor at 1. -/
lemma receiveDMX_break_start (s : DMXState) (t m : Nat)
    (hbrk : usub32 t s.lastByteTime > 88) :
    receiveDMX s 0 t m =
      { s with dmxData := setSlot s.dmxData 0 0, dmxState := 1, channelCount := 1,
               inBreak := false, lastByteTime := t } := by
  unfold receiveDMX afterBreakCheck assemble
  rw [if_pos hbrk]
  simp [DMX_START_CODE]

/-- A break followed by an invalid start code: discard and return to idle. -/
lemma receiveDMX_break_bad (s : DMXState) (b t m : Nat)
    (hbrk : usub32 t s.lastByteTime > 88) (hb : b ≠ DMX_START_CODE) :
    receiveDMX s b t m =
      { s with dmxState := 0, channelCount := 0, inBreak := false, lastByteTime := t } := by
  unfold receiveDMX afterBreakCheck assemble
  rw [if_pos hbrk]
  simp [hb]

/-- A non-break data byte in mid-frame: store it at the cursor and advance. -/
lemma receiveDMX_data_mid (s : DMXState) (b t m : Nat) (hst : s.dmxState = 1)
    (h1 : 1 ≤ s.channelCount) (h2 : s.channelCount < 512)
    (hnb : usub32 t s.lastByteTime ≤ 88) :
    receiveDMX s b t m =
      { s with dmxData := setSlot s.dmxData s.channelCount b,
               channelCount := s.channelCount + 1, lastByteTime := t } := by
  have hnb2 : ¬ usub32 t s.lastByteTime > 88 := by omega
  unfold receiveDMX afterBreakCheck assemble
  rw [if_neg hnb2]
  have hc0 : ¬ s.channelCount = 0 := by omega
  have hcle : s.channelCount ≤ DMX_CHANNELS := by unfold DMX_CHANNELS; omega
  have hnc : ¬ s.channelCount + 1 > DMX_CHANNELS := by unfold DMX_CHANNELS; omega
  simp [hst, hc0, hcle, hnc]

/-- The 512th channel byte (cursor at 512, not preceded by a break) completes
the frame: it is stored in slot 512, the frame is published, the completion
time is recorded, and the machine returns to idle. -/
lemma receiveDMX_data_complete (s : DMXState) (b t m : Nat) (hst : s.dmxState = 1)
    (hc : s.channelCount = 512) (hnb : usub32 t s.lastByteTime ≤ 88) :
    receiveDMX s b t m =
      { s with dmxData := setSlot s.dmxData 512 b, channelCount := 513,
               lastByteTime := t, dmxFrameReceived := true, lastFrameTime := m,
               dmxState := 0 } := by
  have hnb2 : ¬ usub32 t s.lastByteTime > 88 := by omega
  unfold receiveDMX afterBreakCheck assemble
  rw [if_neg hnb2]
  have hc0 : ¬ s.channelCount = 0 := by omega
  have hcle : s.channelCount ≤ DMX_CHANNELS := by unfold DMX_CHANNELS; omega
  have hnc : s.channelCount + 1 > DMX_CHANNELS := by unfold DMX_CHANNELS; omega
  simp [hst, hc0, hcle, hnc, hc, DMX_CHANNELS]

/-- A non-break byte while idle is ignored; only `lastByteTime` moves. -/
lemma receiveDMX_idle (s : DMXState) (b t m : Nat) (hst : s.dmxState = 0)
    (hnb : usub32 t s.lastByteTime ≤ 88) :
    receiveDMX s b t m = { s with lastByteTime := t } := by
  have hnb2 : ¬ usub32 t s.lastByteTime > 88 := by omega
  unfold receiveDMX afterBreakCheck assemble
  rw [if_neg hnb2]
  simp [hst]

/-- Pointwise description of `writeRun`. -/
lemma writeRun_apply (f : Nat → Nat) (c v k j : Nat) :
    writeRun f c v k j = if c ≤ j ∧ j < c + k then v else f j := by
  induction k with
  | zero =>
    unfold writeRun
    rw [if_neg (by omega : ¬ (c ≤ j ∧ j < c + 0))]
  | succ k ih =>
    unfold writeRun setSlot
    rw [ih]
    by_cases hj : j = c + k
    · rw [if_pos hj, if_pos (by omega : c ≤ j ∧ j < c + (k + 1))]
    · rw [if_neg hj]
      by_cases hin : c ≤ j ∧ j < c + k
      · rw [if_pos hin, if_pos (by omega : c ≤ j ∧ j < c + (k + 1))]
      · rw [if_neg hin, if_neg (by omega : ¬ (c ≤ j ∧ j < c + (k + 1)))]

/-- Splitting the last byte off a train. -/
lemma train_succ (v t m k : Nat) :
    train v t m (k + 1) = train v t m k ++ [Event.byte v (t + 44 * (k + 1)) m] := by
  simp [train, List.range_succ]

/-- Running a single byte event. -/
lemma runFrom_byte (s : DMXState) (b t m : Nat) :
    runFrom s [Event.byte b t m] = receiveDMX s b t m := by
  simp [runFrom, applyEvent]

/-- Feeding a train of `k` data bytes while receiving in mid-frame stores the
bytes at the cursor positions and advances the cursor by `k`. -/
lemma runFrom_train (s : DMXState) (v t m k : Nat)
    (hst : s.dmxState = 1) (h1 : 1 ≤ s.channelCount) (hk : s.channelCount + k ≤ 512)
    (hlbt : s.lastByteTime = t) (hw : t + 44 * k < U32) :
    runFrom s (train v t m k) =
      { s with dmxData := writeRun s.dmxData s.channelCount v k,
               channelCount := s.channelCount + k,
               lastByteTime := t + 44 * k } := by
  induction k with
  | zero => simp [train, runFrom, writeRun, ← hlbt]
  | succ k ih =>
    rw [train_succ, runFrom_append, ih (by omega) (by unfold U32 at *; omega),
        runFrom_byte]
    have hmid := receiveDMX_data_mid
      { s with dmxData := writeRun s.dmxData s.channelCount v k,
               channelCount := s.channelCount + k,
               lastByteTime := t + 44 * k }
      v (t + 44 * (k + 1)) m hst
      (show 1 ≤ s.channelCount + k by omega)
      (show s.channelCount + k < 512 by omega)
      (by show usub32 (t + 44 * (k + 1)) (t + 44 * k) ≤ 88
          rw [usub32_of_le _ _ (by omega) (by unfold U32 at *; omega)]
          omega)
    rw [hmid]
    rfl

/-- Running the complete wire frame `fullFrame` from `setup()` yields exactly
`frameState`: frame published, completion time 100 ms, machine idle, slot 0
holding the start code and slots 1–512 holding value 7. -/
lemma run_fullFrame : run fullFrame = frameState := by
  have hsplit : fullFrame = (Event.byte 0 1000 100 :: train 7 1000 100 511) ++
      [Event.byte 7 (1000 + 44 * (511 + 1)) 100] := by
    show Event.byte 0 1000 100 :: train 7 1000 100 (511 + 1) = _
    rw [train_succ, List.cons_append]
  have hstep1 : receiveDMX initState 0 1000 100 = sA :=
    receiveDMX_break_start _ _ _ (by decide)
  have hcons : run fullFrame =
      runFrom (receiveDMX initState 0 1000 100)
        (train 7 1000 100 511 ++ [Event.byte 7 (1000 + 44 * (511 + 1)) 100]) := by
    rw [hsplit]
    show runFrom initState (Event.byte 0 1000 100 ::
      (train 7 1000 100 511 ++ [Event.byte 7 (1000 + 44 * (511 + 1)) 100])) = _
    simp [runFrom, applyEvent]
  have htrain : runFrom sA (train 7 1000 100 511) = sB :=
    runFrom_train sA 7 1000 100 511 rfl (by decide) (by decide) rfl (by decide)
  have hlast : receiveDMX sB 7 (1000 + 44 * (511 + 1)) 100 = sC :=
    receiveDMX_data_complete sB 7 _ 100 rfl rfl (by decide)
  rw [hcons, hstep1, runFrom_append, htrain, runFrom_byte, hlast]
  refine DMXState.ext ?_ rfl rfl rfl rfl rfl (by decide)
  funext j
  show setSlot (writeRun (setSlot (fun _ => 0) 0 0) 1 7 511) 512 7 j =
    (if j = 0 then 0 else if j ≤ 512 then 7 else 0)
  simp only [setSlot, writeRun_apply]
  split_ifs <;> omega

/-- `receiveDMX` never clears the published-frame flag. -/
lemma receiveDMX_flag_mono (s : DMXState) (b t m : Nat)
    (h : s.dmxFrameReceived = true) : (receiveDMX s b t m).dmxFrameReceived = true := by
  unfold receiveDMX afterBreakCheck assemble
  split_ifs <;> simp_all <;> split <;> simp_all

/-- The 5000 ms timeout branch never fires inside a `loop()` iteration while
a frame is published: the 1000 ms print branch has already refreshed
`lastFrameTime` with the very same `millis()` reading, so the `loopTick`
flag is preserved. -/
lemma loopTick_flag_mono (s : DMXState) (m : Nat)
    (h : s.dmxFrameReceived = true) : (loopTick s m).dmxFrameReceived = true := by
  unfold loopTick loopTickTimeout
  by_cases hg : usub32 m s.lastFrameTime > 1000
  · have h0 : ¬ usub32 m m > 5000 := by
      rw [usub32_self]
      omega
    simp [h, hg, h0]
  · have h5 : ¬ usub32 m s.lastFrameTime > 5000 := by omega
    simp [h, hg, h5]

/-- No event ever clears the published-frame flag. -/
lemma applyEvent_flag_mono (s : DMXState) (e : Event)
    (h : s.dmxFrameReceived = true) : (applyEvent s e).dmxFrameReceived = true := by
  cases e with
  | byte b tu tm => exact receiveDMX_flag_mono s b tu tm h
  | tick tm => exact loopTick_flag_mono s tm h

/-- An invariant preserved by every event holds after any event sequence. -/
lemma runFrom_inv (P : DMXState → Prop) (hstep : ∀ s e, P s → P (applyEvent s e)) :
    ∀ (es : List Event) (s : DMXState), P s → P (runFrom s es) := by
  intro es
  induction es with
  | nil => intro s hs; exact hs
  | cons e rest ih =>
    intro s hs
    exact ih (applyEvent s e) (hstep s e hs)

/-- Once the published-frame flag is set, it stays set under any further
event sequence. -/
lemma runFrom_flag_mono (s : DMXState) (es : List Event)
    (h : s.dmxFrameReceived = true) : (runFrom s es).dmxFrameReceived = true :=
  runFrom_inv (fun s => s.dmxFrameReceived = true) applyEvent_flag_mono es s h

/-- The buffer mutation of one `receiveDMX` invocation is exactly the writes
of value `b` at the indices of `writeIndices`. -/
lemma receiveDMX_dmxData_writes (s : DMXState) (b t m : Nat) :
    (receiveDMX s b t m).dmxData =
      (writeIndices s b t).foldl (fun f i => setSlot f i b) s.dmxData := by
  unfold receiveDMX writeIndices afterBreakCheck assemble
  split_ifs <;> simp_all [List.foldl] <;> first
    | (exfalso; omega)
    | (split <;> first
        | (exfalso; omega)
        | simp_all)

/-- Every index emitted by `writeIndices` lies in `[0, 512]`. -/
lemma writeIndices_le (s : DMXState) (b t : Nat) (i : Nat)
    (hi : i ∈ writeIndices s b t) : i ≤ 512 := by
  unfold writeIndices at hi
  split_ifs at hi <;> simp_all [DMX_CHANNELS, afterBreakCheck] <;>
    split_ifs at hi <;> simp_all <;> omega

/-- A write to slot 0 carries the start code. -/
lemma writeIndices_zero (s : DMXState) (b t : Nat)
    (hi : 0 ∈ writeIndices s b t) : b = DMX_START_CODE := by
  unfold writeIndices at hi
  split_ifs at hi <;> simp_all [afterBreakCheck] <;>
    split_ifs at hi <;> simp_all <;> omega

/-- `loopTick` never touches the frame buffer. -/
lemma loopTick_dmxData (s : DMXState) (m : Nat) : (loopTick s m).dmxData = s.dmxData := by
  unfold loopTick loopTickTimeout
  split_ifs <;> rfl

/-- `loopTick` never touches the cursor. -/
lemma loopTick_channelCount (s : DMXState) (m : Nat) :
    (loopTick s m).channelCount = s.channelCount := by
  unfold loopTick loopTickTimeout
  split_ifs <;> rfl

/-- `writeIndices` emits at most one index. -/
lemma writeIndices_cases (s : DMXState) (b t : Nat) :
    writeIndices s b t = [] ∨ ∃ i, writeIndices s b t = [i] := by
  unfold writeIndices
  by_cases h1 : (afterBreakCheck s t).dmxState = 1
  · by_cases h2 : (afterBreakCheck s t).channelCount = 0
    · by_cases h3 : b = DMX_START_CODE
      · right
        exact ⟨0, by simp [h1, h2, h3]⟩
      · left
        simp [h1, h2, h3]
    · by_cases h4 : (afterBreakCheck s t).channelCount ≤ DMX_CHANNELS
      · right
        exact ⟨(afterBreakCheck s t).channelCount, by simp [h1, h2, h4]⟩
      · left
        simp [h1, h2, h4]
  · left
    simp [h1]

/-- Slot 0 of the buffer is preserved (or rewritten with the zero start code)
by `receiveDMX`. -/
lemma receiveDMX_slot0 (s : DMXState) (b t m : Nat)
    (h : s.dmxData 0 = 0) : (receiveDMX s b t m).dmxData 0 = 0 := by
  rcases writeIndices_cases s b t with hw | ⟨i, hw⟩
  · rw [receiveDMX_dmxData_writes, hw]
    simpa using h
  · rw [receiveDMX_dmxData_writes, hw]
    show setSlot s.dmxData i b 0 = 0
    unfold setSlot
    by_cases hi : (0 : Nat) = i
    · have hb : b = DMX_START_CODE := by
        apply writeIndices_zero s b t
        rw [hw, hi]
        exact List.mem_singleton.mpr rfl
      simp [hi, hb, DMX_START_CODE]
    · simp [hi, h]

/-- Slot 0 of the buffer is preserved (or rewritten with 0) by every event. -/
lemma applyEvent_slot0 (s : DMXState) (e : Event)
    (h : s.dmxData 0 = 0) : (applyEvent s e).dmxData 0 = 0 := by
  cases e with
  | byte b tu tm => exact receiveDMX_slot0 s b tu tm h
  | tick tm =>
    show (loopTick s tm).dmxData 0 = 0
    rw [loopTick_dmxData]
    exact h

/-- Per-byte evolution of the cursor: it becomes 0 or 1, stays, or is
incremented from a value of at most 512. -/
lemma receiveDMX_channelCount_cases (s : DMXState) (b t m : Nat) :
    (receiveDMX s b t m).channelCount = 0 ∨ (receiveDMX s b t m).channelCount = 1 ∨
    (receiveDMX s b t m).channelCount = s.channelCount ∨
    ((receiveDMX s b t m).channelCount = s.channelCount + 1 ∧ s.channelCount ≤ 512) := by
  unfold receiveDMX afterBreakCheck assemble DMX_CHANNELS
  by_cases hbrk : usub32 t s.lastByteTime > 88
  · rw [if_pos hbrk]
    by_cases hb : b = DMX_START_CODE <;> simp [hb]
  · rw [if_neg hbrk]
    by_cases hst : s.dmxState = 1
    · by_cases hc : s.channelCount = 0
      · by_cases hb : b = DMX_START_CODE <;> simp [hst, hc, hb]
      · by_cases hcle : s.channelCount ≤ 512
        · by_cases hover : 512 < s.channelCount + 1 <;>
            simp [hst, hc, hcle, hover] <;> omega
        · simp [hst, hc, hcle]
    · simp [hst]

/-- Per-event evolution of the cursor: it becomes 0 or 1, stays, or is
incremented from a value of at most 512. -/
lemma applyEvent_channelCount (s : DMXState) (e : Event) :
    (applyEvent s e).channelCount = 0 ∨ (applyEvent s e).channelCount = 1 ∨
    (applyEvent s e).channelCount = s.channelCount ∨
    ((applyEvent s e).channelCount = s.channelCount + 1 ∧ s.channelCount ≤ 512) := by
  cases e with
  | byte b tu tm => exact receiveDMX_channelCount_cases s b tu tm
  | tick tm =>
    right; right; left
    exact loopTick_channelCount s tm

/-- An invalid start code without a break: the byte is discarded and the
machine returns to idle, leaving buffer, flag and cursor untouched. -/
lemma receiveDMX_bad_start (s : DMXState) (b t m : Nat) (hst : s.dmxState = 1)
    (hc : s.channelCount = 0) (hb : b ≠ DMX_START_CODE)
    (hnb : usub32 t s.lastByteTime ≤ 88) :
    receiveDMX s b t m = { s with dmxState := 0, lastByteTime := t } := by
  have hnb2 : ¬ usub32 t s.lastByteTime > 88 := by omega
  unfold receiveDMX afterBreakCheck assemble
  rw [if_neg hnb2]
  simp [hst, hc, hb]

/-- `getDMXChannel` depends only on the buffer and the published-frame flag. -/
lemma getDMXChannel_congr (s1 s2 : DMXState) (hd : s1.dmxData = s2.dmxData)
    (hf : s1.dmxFrameReceived = s2.dmxFrameReceived) :
    ∀ n : Int, getDMXChannel s1 n = getDMXChannel s2 n := by
  intro n
  unfold getDMXChannel
  rw [hd, hf]

/-- While idle, a run of non-break bytes changes nothing but `lastByteTime`. -/
lemma runBytes_idle (l : List (Nat × Nat × Nat)) :
    ∀ s : DMXState, s.dmxState = 0 → allNonBreak s l →
      (runBytes s l).dmxData = s.dmxData ∧
      (runBytes s l).dmxFrameReceived = s.dmxFrameReceived ∧
      (runBytes s l).lastFrameTime = s.lastFrameTime ∧
      (runBytes s l).dmxState = 0 ∧
      (runBytes s l).channelCount = s.channelCount := by
  induction l with
  | nil =>
    intro s h0 _
    exact ⟨rfl, rfl, rfl, h0, rfl⟩
  | cons e rest ih =>
    obtain ⟨b, t, m⟩ := e
    intro s h0 hnb
    obtain ⟨h1, h2⟩ := hnb
    have hstep := receiveDMX_idle s b t m h0 h1
    unfold runBytes
    rw [hstep] at h2 ⊢
    exact ih _ h0 h2

end Lemmas

section Claims

/-- C1 (counterexample): after a full frame of 7s is published, a new break,
start code and one channel byte 9 leave the machine mid-assembly
(`Receiving`, cursor 2), yet `getDMXChannel 1` now returns the in-progress
byte 9 — neither the all-zero initial store (0) nor the last fully completed
frame's channel 1 (7).  The single buffer is overwritten in place, so a
reader can observe a frame that is still mid-assembly. -/
theorem C1_midframe_observable :
    getDMXChannel (run fullFrame) 1 = 7 ∧
    getDMXChannel (run (fullFrame ++ overwriteTwo)) 1 = 9 ∧
    (run (fullFrame ++ overwriteTwo)).dmxState = 1 ∧
    (run (fullFrame ++ overwriteTwo)).channelCount = 2 ∧
    (9 : Nat) ≠ 7 ∧ (9 : Nat) ≠ 0 := by
  have h1 : getDMXChannel (run fullFrame) 1 = 7 := by
    rw [run_fullFrame]
    decide
  have h2 : run (fullFrame ++ overwriteTwo) = runFrom frameState overwriteTwo := by
    rw [run_append, run_fullFrame]
  refine ⟨h1, ?_, ?_, ?_, by decide, by decide⟩ <;> rw [h2] <;> decide

/-- C1 (amended): the no-partial-publication guarantee holds exactly until
the first frame completes: while `dmxFrameReceived` is still false, every
`getDMXChannel` read returns 0, so no mid-assembly bytes are observable.
(After the first publication the single in-place buffer is exposed directly
and mid-assembly bytes become observable, per the counterexample.) -/
theorem C1_zero_before_first_frame (es : List Event) (n : Int)
    (h : (run es).dmxFrameReceived = false) : getDMXChannel (run es) n = 0 := by
  simp [getDMXChannel, h]

/-- Witness for C1 (amended): a break plus start code alone (frame
mid-assembly, nothing ever published) leaves every channel read at 0. -/
theorem C1_zero_before_first_frame_witness :
    (run [Event.byte 0 1000 100]).dmxFrameReceived = false ∧
    getDMXChannel (run [Event.byte 0 1000 100]) 1 = 0 :=
  ⟨by decide, C1_zero_before_first_frame [Event.byte 0 1000 100] 1 (by decide)⟩

/-- C2 (code evaluation at the failing input): a frame completes at
`millis() = 100`; no further bytes ever arrive, only `loop()` iterations
(ticks) at 1200 and 2300.  At `millis() = 2500` — more than 2000 ms after
completion — `isDMXConnected()` still returns true, because the 1000 ms
print-throttle branch of `loop()` keeps reassigning `lastFrameTime` (here to
2300), so the 2000 ms staleness window never expires. -/
theorem C2_staleness_check_defeated :
    (run fullFrame).lastFrameTime = 100 ∧
    usub32 2500 100 > 2000 ∧
    isDMXConnected (run (fullFrame ++ [Event.tick 1200, Event.tick 2300])) 2500 = true ∧
    (run (fullFrame ++ [Event.tick 1200, Event.tick 2300])).lastFrameTime = 2300 := by
  have h2 : run (fullFrame ++ [Event.tick 1200, Event.tick 2300]) =
      runFrom frameState [Event.tick 1200, Event.tick 2300] := by
    rw [run_append, run_fullFrame]
  refine ⟨by rw [run_fullFrame]; rfl, by decide, ?_, ?_⟩ <;> rw [h2] <;> decide

/-- C3 (counterexample): after a full frame of 7s is published, a second
frame's break, start code and channel bytes 9, 11 overwrite the single
buffer in place; `getDMXChannel 2` then returns 11, not the value 7 stored
at slot 2 of the last published frame. -/
theorem C3_returns_overwritten_slot :
    getDMXChannel (run fullFrame) 2 = 7 ∧
    getDMXChannel (run (fullFrame ++ overwriteThree)) 2 = 11 ∧
    (run (fullFrame ++ overwriteThree)).dmxFrameReceived = true ∧
    (11 : Nat) ≠ 7 := by
  have h2 : run (fullFrame ++ overwriteThree) = runFrom frameState overwriteThree := by
    rw [run_append, run_fullFrame]
  refine ⟨by rw [run_fullFrame]; decide, ?_, ?_, by decide⟩ <;> rw [h2] <;> decide

/-- C3 (amended): `getDMXChannel n` returns 0 if no frame has been published
or `n` is outside 1..512; otherwise it returns the current contents of
buffer slot `n` (which equals the last published frame's slot except where a
subsequent in-progress frame has already overwritten it); and once a frame
has been published, `dmxFrameReceived` never reverts under any further
events, so the call keeps returning the stored slot regardless of elapsed
time. -/
theorem C3_getDMXChannel_amended :
    (∀ (es : List Event) (n : Int),
      ((run es).dmxFrameReceived = false ∨ n < 1 ∨ 512 < n) →
      getDMXChannel (run es) n = 0) ∧
    (∀ (es : List Event) (n : Int), (run es).dmxFrameReceived = true →
      1 ≤ n → n ≤ 512 → getDMXChannel (run es) n = (run es).dmxData n.toNat) ∧
    (∀ (es es2 : List Event), (run es).dmxFrameReceived = true →
      (run (es ++ es2)).dmxFrameReceived = true) := by
  refine ⟨?_, ?_, ?_⟩
  · intro es n h
    unfold getDMXChannel DMX_CHANNELS
    rcases h with h | h | h
    · rw [if_neg]
      rintro ⟨_, _, h3⟩
      rw [h] at h3
      exact Bool.false_ne_true h3
    · rw [if_neg]
      rintro ⟨h1, _, _⟩
      omega
    · rw [if_neg]
      rintro ⟨_, h2, _⟩
      omega
  · intro es n hf h1 h2
    unfold getDMXChannel DMX_CHANNELS
    rw [if_pos ⟨h1, by omega, hf⟩]
  · intro es es2 hf
    rw [run_append]
    exact runFrom_flag_mono (run es) es2 hf

/-- Witness for C3 (amended): an out-of-range read returns 0, and the
published flag survives a further loop iteration. -/
theorem C3_getDMXChannel_amended_witness :
    getDMXChannel (run fullFrame) 600 = 0 ∧
    (run (fullFrame ++ [Event.tick 9999])).dmxFrameReceived = true := by
  have hflag : (run fullFrame).dmxFrameReceived = true := by
    rw [run_fullFrame]
    rfl
  exact ⟨C3_getDMXChannel_amended.1 fullFrame 600 (Or.inr (Or.inr (by norm_num))),
         C3_getDMXChannel_amended.2.2 fullFrame [Event.tick 9999] hflag⟩

/-- C4: break always wins — for every state and byte, if the gap check
classifies the byte as break-preceded, the machine restarts: if the byte is
the valid start code it is stored in slot 0 (not as channel data) and the
state becomes `Receiving` with the cursor at 1; otherwise the byte is
discarded, buffer untouched, and the state is `Idle` with the cursor at 0. -/
theorem C4_break_always_wins (s : DMXState) (b t m : Nat)
    (hbrk : usub32 t s.lastByteTime > 88) :
    (b = DMX_START_CODE →
      (receiveDMX s b t m).dmxState = 1 ∧ (receiveDMX s b t m).channelCount = 1 ∧
      (receiveDMX s b t m).dmxData = setSlot s.dmxData 0 b) ∧
    (b ≠ DMX_START_CODE →
      (receiveDMX s b t m).dmxState = 0 ∧ (receiveDMX s b t m).channelCount = 0 ∧
      (receiveDMX s b t m).dmxData = s.dmxData) := by
  constructor
  · intro hb
    subst hb
    simp only [DMX_START_CODE]
    rw [receiveDMX_break_start s t m hbrk]
    exact ⟨rfl, rfl, rfl⟩
  · intro hb
    rw [receiveDMX_break_bad s b t m hbrk hb]
    exact ⟨rfl, rfl, rfl⟩

/-- Witness for C4: the first byte after a long gap with a valid start code
enters `Receiving` with the cursor at 1. -/
theorem C4_break_always_wins_witness :
    usub32 1000 initState.lastByteTime > 88 ∧
    (receiveDMX initState 0 1000 0).dmxState = 1 ∧
    (receiveDMX initState 0 1000 0).channelCount = 1 := by
  have h := (C4_break_always_wins initState 0 1000 0 (by decide)).1 rfl
  exact ⟨by decide, h.1, h.2.1⟩

/-- C5: frame completion — in `Receiving` with the cursor at 512, a non-break
byte stores slot 512, publishes the frame, records the completion time, and
returns to `Idle`, with no subsequent break needed; any further run of
non-break bytes leaves the published buffer, flag, completion time and idle
state untouched. -/
theorem C5_frame_completion (s : DMXState) (b t m : Nat)
    (hst : s.dmxState = 1) (hc : s.channelCount = 512)
    (hnb : usub32 t s.lastByteTime ≤ 88) :
    ((receiveDMX s b t m).dmxFrameReceived = true ∧
     (receiveDMX s b t m).lastFrameTime = m ∧
     (receiveDMX s b t m).dmxState = 0 ∧
     (receiveDMX s b t m).channelCount = 513 ∧
     (receiveDMX s b t m).dmxData = setSlot s.dmxData 512 b) ∧
    (∀ l, allNonBreak (receiveDMX s b t m) l →
      (runBytes (receiveDMX s b t m) l).dmxData = setSlot s.dmxData 512 b ∧
      (runBytes (receiveDMX s b t m) l).dmxFrameReceived = true ∧
      (runBytes (receiveDMX s b t m) l).lastFrameTime = m ∧
      (runBytes (receiveDMX s b t m) l).dmxState = 0) := by
  have hdone := receiveDMX_data_complete s b t m hst hc hnb
  constructor
  · rw [hdone]
    exact ⟨rfl, rfl, rfl, rfl, rfl⟩
  · intro l hl
    rw [hdone] at hl ⊢
    have hidle := runBytes_idle l _ rfl hl
    exact ⟨hidle.1, hidle.2.1, hidle.2.2.1, hidle.2.2.2.1⟩

/-- Witness for C5: from a receiving state with the cursor at 512, byte 5
completes and publishes the frame, and a following non-break byte 9 changes
nothing. -/
theorem C5_frame_completion_witness :
    (receiveDMX recvAt512 5 1044 77).dmxFrameReceived = true ∧
    (runBytes (receiveDMX recvAt512 5 1044 77) [(9, 1088, 80)]).dmxState = 0 := by
  have h := C5_frame_completion recvAt512 5 1044 77 rfl rfl (by decide)
  refine ⟨h.1.1, (h.2 [(9, 1088, 80)] ⟨by decide, trivial⟩).2.2.2⟩

/-- C6: bounded channel writes — for every input sequence (hence every
reachable state) and every incoming byte, each buffer index written by
`receiveDMX` lies in `[0, 512]`, and the buffer mutation of a step is exactly
the writes at the indices of `writeIndices`. -/
theorem C6_bounded_writes :
    (∀ (es : List Event) (b t : Nat), ∀ i ∈ writeIndices (run es) b t, i ≤ 512) ∧
    (∀ (s : DMXState) (b t m : Nat),
      (receiveDMX s b t m).dmxData =
        (writeIndices s b t).foldl (fun f i => setSlot f i b) s.dmxData) :=
  ⟨fun es b t i hi => writeIndices_le (run es) b t i hi,
   fun s b t m => receiveDMX_dmxData_writes s b t m⟩

/-- Witness for C6: the very first break byte writes index 0, which is within
bounds. -/
theorem C6_bounded_writes_witness :
    0 ∈ writeIndices (run []) 0 1000 ∧ (0 : Nat) ≤ 512 :=
  ⟨by decide, C6_bounded_writes.1 [] 0 1000 0 (by decide)⟩

/-- C7: invalid-start-code atomicity — in `Receiving` with the cursor at 0, a
byte other than 0x00 sends the machine to `Idle` and leaves the buffer, the
published-frame flag, and hence every `getDMXChannel` reading unchanged
(whether or not the byte also followed a break). -/
theorem C7_invalid_start_code (s : DMXState) (b t m : Nat)
    (hst : s.dmxState = 1) (hc : s.channelCount = 0) (hb : b ≠ DMX_START_CODE) :
    (receiveDMX s b t m).dmxState = 0 ∧
    (receiveDMX s b t m).dmxData = s.dmxData ∧
    (receiveDMX s b t m).dmxFrameReceived = s.dmxFrameReceived ∧
    (∀ n : Int, getDMXChannel (receiveDMX s b t m) n = getDMXChannel s n) := by
  by_cases hbrk : usub32 t s.lastByteTime > 88
  · rw [receiveDMX_break_bad s b t m hbrk hb]
    exact ⟨rfl, rfl, rfl, getDMXChannel_congr _ _ rfl rfl⟩
  · rw [receiveDMX_bad_start s b t m hst hc hb (by omega)]
    exact ⟨rfl, rfl, rfl, getDMXChannel_congr _ _ rfl rfl⟩

/-- Witness for C7: byte 0x55 as a would-be start code aborts to `Idle` and
channel 1 reads the same before and after. -/
theorem C7_invalid_start_code_witness :
    (receiveDMX recvAt0 85 1044 0).dmxState = 0 ∧
    getDMXChannel (receiveDMX recvAt0 85 1044 0) 1 = getDMXChannel recvAt0 1 := by
  have h := C7_invalid_start_code recvAt0 85 1044 0 rfl rfl (by decide)
  exact ⟨h.1, h.2.2.2 1⟩

/-- C8 (counterexample): the very first byte ever processed (state fresh from
`setup()`, `lastByteTime = 0`) arriving at `micros() = 50` with a valid start
code is NOT classified as a break: the gap 50 does not exceed 88, so the
machine stays `Idle` with the cursor at 0 and the byte is discarded — not the
`Receiving`/cursor-1 outcome an implicit break would produce. -/
theorem C8_first_byte_not_break :
    usub32 50 initState.lastByteTime ≤ 88 ∧
    (receiveDMX initState 0 50 0).dmxState = 0 ∧
    (receiveDMX initState 0 50 0).channelCount = 0 := by
  decide

/-- C8 (amended): on the very first byte the gap computes to the raw
timestamp (`lastByteTime` is initialized to 0), so the byte is treated as
break-preceded iff its `micros()` value modulo 2^32 exceeds 88; a first byte
arriving at 88 µs or earlier is handled as an in-frame byte while idle, i.e.
discarded with only `lastByteTime` updated. -/
theorem C8_first_byte_amended (b t m : Nat) :
    usub32 t initState.lastByteTime = t % U32 ∧
    (t % U32 > 88 → b = DMX_START_CODE →
      (receiveDMX initState b t m).dmxState = 1 ∧
      (receiveDMX initState b t m).channelCount = 1) ∧
    (t % U32 > 88 → b ≠ DMX_START_CODE →
      (receiveDMX initState b t m).dmxState = 0 ∧
      (receiveDMX initState b t m).channelCount = 0) ∧
    (t % U32 ≤ 88 → receiveDMX initState b t m = { initState with lastByteTime := t }) := by
  have h0 : usub32 t initState.lastByteTime = t % U32 := by
    show usub32 t 0 = t % U32
    unfold usub32 U32
    omega
  refine ⟨h0, ?_, ?_, ?_⟩
  · intro ht hb
    subst hb
    simp only [DMX_START_CODE]
    rw [receiveDMX_break_start initState t m (by rw [h0]; exact ht)]
    exact ⟨rfl, rfl⟩
  · intro ht hb
    rw [receiveDMX_break_bad initState b t m (by rw [h0]; exact ht) hb]
    exact ⟨rfl, rfl⟩
  · intro ht
    exact receiveDMX_idle initState b t m rfl (by rw [h0]; omega)

/-- Witness for C8 (amended): a first byte at 1000 µs is break-preceded and
opens a frame; a first byte at 50 µs only updates `lastByteTime`. -/
theorem C8_first_byte_amended_witness :
    (receiveDMX initState 0 1000 0).dmxState = 1 ∧
    receiveDMX initState 0 50 0 = { initState with lastByteTime := 50 } := by
  refine ⟨((C8_first_byte_amended 0 1000 0).2.1 (by decide) rfl).1, ?_⟩
  exact (C8_first_byte_amended 0 50 0).2.2.2 (by decide)

/-- C9: start-code slot invariant — slot 0 of the buffer is 0 after `setup()`
and after every event sequence, and the only value a `receiveDMX` step ever
writes to slot 0 is the validated start code 0x00. -/
theorem C9_slot0_invariant :
    (∀ es : List Event, (run es).dmxData 0 = 0) ∧
    (∀ (s : DMXState) (b t : Nat), 0 ∈ writeIndices s b t → b = DMX_START_CODE) :=
  ⟨fun es => runFrom_inv (fun s => s.dmxData 0 = 0) applyEvent_slot0 es initState rfl,
   fun s b t hi => writeIndices_zero s b t hi⟩

/-- Witness for C9: slot 0 still reads 0 after a complete frame, and the
break byte that writes slot 0 is necessarily the zero start code. -/
theorem C9_slot0_invariant_witness :
    (run fullFrame).dmxData 0 = 0 ∧ (0 : Nat) = DMX_START_CODE :=
  ⟨C9_slot0_invariant.1 fullFrame, C9_slot0_invariant.2 initState 0 1000 (by decide)⟩

/-- C10: cursor bound invariant — after every event sequence the cursor
`channelCount` is at most 513, and each single step resets it to 0, sets it
to 1, leaves it unchanged, or increments it from a value of at most 512. -/
theorem C10_cursor_bound :
    (∀ es : List Event, (run es).channelCount ≤ 513) ∧
    (∀ (s : DMXState) (e : Event),
      (applyEvent s e).channelCount = 0 ∨ (applyEvent s e).channelCount = 1 ∨
      (applyEvent s e).channelCount = s.channelCount ∨
      ((applyEvent s e).channelCount = s.channelCount + 1 ∧ s.channelCount ≤ 512)) := by
  refine ⟨fun es => ?_, applyEvent_channelCount⟩
  refine runFrom_inv (fun s => s.channelCount ≤ 513) ?_ es initState (by decide)
  intro s e hs
  rcases applyEvent_channelCount s e with h | h | h | ⟨h, hle⟩ <;> omega

end Claims



end DMX
